import Mathlib

set_option maxRecDepth 4000

/-!
# Verification of the houdini-mcp transport and discovery layer

Shallow embedding of the core of the `houdini-mcp` repository:

* `src/houdinimcp_addon.py` — the host side (`HoudiniMCPServer`): port-file
  registry, stale-file cleanup, bind/listen/accept loop, framed JSON decode,
  command dispatch (`execute_command`);
* `src/src/houdini_mcp/server.py` — the client side (`HoudiniConnection`):
  `receive_full_response`, `send_command`, `_discover_instances`,
  `get_houdini_connection`.

Machine-level externals (sockets, the filesystem, `os.kill`) are modelled as
explicit oracles/events; the Python `json` module is modelled by an executable
serializer `dumps` and parser `loads` over a `Json` value type.  The model
restricts JSON numbers to integers (none of the repository's envelopes or
registry descriptors require floats), and `json.dumps(..., ensure_ascii=True)`
output is ASCII, so the wire stream is modelled as a list of characters.
-/

/-- JSON values, as produced by Python's `json` module (numbers restricted to
integers).  Objects keep their key/value pairs in textual order; Python dict
semantics (last duplicate key wins) are applied at lookup time by `pyGet`. -/
inductive Json where
  | null : Json
  | bool : Bool → Json
  | num : Int → Json
  | str : String → Json
  | arr : List Json → Json
  | obj : List (String × Json) → Json

mutual

def jsonDecEq : (a b : Json) → Decidable (a = b)
  | Json.null, Json.null => isTrue rfl
  | Json.null, Json.bool _ => isFalse (by simp)
  | Json.null, Json.num _ => isFalse (by simp)
  | Json.null, Json.str _ => isFalse (by simp)
  | Json.null, Json.arr _ => isFalse (by simp)
  | Json.null, Json.obj _ => isFalse (by simp)
  | Json.bool _, Json.null => isFalse (by simp)
  | Json.bool x, Json.bool y =>
    if h : x = y then isTrue (by rw [h]) else isFalse (by simp [h])
  | Json.bool _, Json.num _ => isFalse (by simp)
  | Json.bool _, Json.str _ => isFalse (by simp)
  | Json.bool _, Json.arr _ => isFalse (by simp)
  | Json.bool _, Json.obj _ => isFalse (by simp)
  | Json.num _, Json.null => isFalse (by simp)
  | Json.num _, Json.bool _ => isFalse (by simp)
  | Json.num x, Json.num y =>
    if h : x = y then isTrue (by rw [h]) else isFalse (by simp [h])
  | Json.num _, Json.str _ => isFalse (by simp)
  | Json.num _, Json.arr _ => isFalse (by simp)
  | Json.num _, Json.obj _ => isFalse (by simp)
  | Json.str _, Json.null => isFalse (by simp)
  | Json.str _, Json.bool _ => isFalse (by simp)
  | Json.str _, Json.num _ => isFalse (by simp)
  | Json.str x, Json.str y =>
    if h : x = y then isTrue (by rw [h]) else isFalse (by simp [h])
  | Json.str _, Json.arr _ => isFalse (by simp)
  | Json.str _, Json.obj _ => isFalse (by simp)
  | Json.arr _, Json.null => isFalse (by simp)
  | Json.arr _, Json.bool _ => isFalse (by simp)
  | Json.arr _, Json.num _ => isFalse (by simp)
  | Json.arr _, Json.str _ => isFalse (by simp)
  | Json.arr x, Json.arr y =>
    match jsonDecEqList x y with
    | isTrue h => isTrue (by rw [h])
    | isFalse h => isFalse (by simp [h])
  | Json.arr _, Json.obj _ => isFalse (by simp)
  | Json.obj _, Json.null => isFalse (by simp)
  | Json.obj _, Json.bool _ => isFalse (by simp)
  | Json.obj _, Json.num _ => isFalse (by simp)
  | Json.obj _, Json.str _ => isFalse (by simp)
  | Json.obj _, Json.arr _ => isFalse (by simp)
  | Json.obj x, Json.obj y =>
    match jsonDecEqObj x y with
    | isTrue h => isTrue (by rw [h])
    | isFalse h => isFalse (by simp [h])

def jsonDecEqList : (a b : List Json) → Decidable (a = b)
  | [], [] => isTrue rfl
  | [], _ :: _ => isFalse (by simp)
  | _ :: _, [] => isFalse (by simp)
  | x :: xs, y :: ys =>
    match jsonDecEq x y with
    | isTrue h1 =>
      match jsonDecEqList xs ys with
      | isTrue h2 => isTrue (by rw [h1, h2])
      | isFalse h2 => isFalse (by simp [h2])
    | isFalse h1 => isFalse (by simp [h1])

def jsonDecEqObj : (a b : List (String × Json)) → Decidable (a = b)
  | [], [] => isTrue rfl
  | [], _ :: _ => isFalse (by simp)
  | _ :: _, [] => isFalse (by simp)
  | (k1, v1) :: xs, (k2, v2) :: ys =>
    if hk : k1 = k2 then
      match jsonDecEq v1 v2 with
      | isTrue h1 =>
        match jsonDecEqObj xs ys with
        | isTrue h2 => isTrue (by rw [hk, h1, h2])
        | isFalse h2 => isFalse (by simp [h2])
      | isFalse h1 => isFalse (by simp [h1])
    else isFalse (by simp [hk])

end

instance : DecidableEq Json := jsonDecEq

/-- Python `dict.get` on an object decoded by `json.loads`: the last occurrence
of a duplicated key wins. -/
def pyGet (kvs : List (String × Json)) (k : String) : Option Json :=
  kvs.reverse.lookup k

/-- Python truthiness of a JSON value (`if pid and ...`). -/
def pyTruthy : Json → Bool
  | Json.null => false
  | Json.bool b => b
  | Json.num n => n != 0
  | Json.str s => s != ""
  | Json.arr xs => !xs.isEmpty
  | Json.obj kvs => !kvs.isEmpty

/-! ## A model of `json.loads`

Recursive-descent parser over `List Char`, with an explicit fuel argument for
termination.  It accepts exactly the documents the model can represent:
`null`, `true`, `false`, integers (no leading zeros, and a number continuing
with `.`/`e`/`E` — i.e. a float, unrepresentable here — is rejected), strings
with the standard escapes, arrays and objects, with JSON whitespace. -/

def isWs (c : Char) : Bool := c = ' ' || c = '\t' || c = '\n' || c = '\r'

def skipWs : List Char → List Char
  | [] => []
  | c :: cs => if isWs c then skipWs cs else c :: cs

def isDigit (c : Char) : Bool := '0' ≤ c && c ≤ '9'

def digitsToNat (ds : List Char) : Nat :=
  ds.foldl (fun acc c => acc * 10 + (c.toNat - '0'.toNat)) 0

/-- Parse a JSON number (integer part only; floats are out of the model). -/
def parseNum (cs : List Char) : Option (Json × List Char) :=
  let p := match cs with
    | '-' :: rest => (true, rest)
    | _ => (false, cs)
  match p.2 with
  | c :: rest =>
    if isDigit c then
      let ds := c :: rest.takeWhile isDigit
      let rest2 := rest.dropWhile isDigit
      if c = '0' && ds.length > 1 then none
      else
        match rest2 with
        | d :: _ =>
          if d = '.' || d = 'e' || d = 'E' then none
          else some (Json.num (if p.1 then -(digitsToNat ds : Int) else (digitsToNat ds : Int)), rest2)
        | [] => some (Json.num (if p.1 then -(digitsToNat ds : Int) else (digitsToNat ds : Int)), [])
    else none
  | [] => none

/-- The hexadecimal digit characters, lowercase. -/
def hexAlphabet : List Char := ("0123456789abcdef").toList

/-- Value of one hexadecimal digit (either case), by alphabet position. -/
def hexVal (c : Char) : Option Nat :=
  match hexAlphabet.indexOf? c with
  | some v => some v
  | none => (("ABCDEF").toList.indexOf? c).map (fun v => v + 10)

/-- Parse the body of a JSON string (the opening quote already consumed). -/
def parseStrBody : Nat → List Char → List Char → Option (String × List Char)
  | _, '"' :: rest, acc => some (String.mk acc.reverse, rest)
  | f + 1, '\\' :: e :: rest, acc =>
    if e = '"' then parseStrBody f rest ('"' :: acc)
    else if e = '\\' then parseStrBody f rest ('\\' :: acc)
    else if e = '/' then parseStrBody f rest ('/' :: acc)
    else if e = 'b' then parseStrBody f rest ('\x08' :: acc)
    else if e = 'f' then parseStrBody f rest ('\x0c' :: acc)
    else if e = 'n' then parseStrBody f rest ('\n' :: acc)
    else if e = 'r' then parseStrBody f rest ('\r' :: acc)
    else if e = 't' then parseStrBody f rest ('\t' :: acc)
    else if e = 'u' then
      match rest with
      | a :: b :: c :: d :: rest2 =>
        match hexVal a, hexVal b, hexVal c, hexVal d with
        | some x, some y, some z, some w =>
          parseStrBody f rest2 (Char.ofNat (x * 4096 + y * 256 + z * 16 + w) :: acc)
        | _, _, _, _ => none
      | _ => none
    else none
  | f + 1, c :: rest, acc =>
    if c.toNat < 32 then none else parseStrBody f rest (c :: acc)
  | _, _, _ => none

mutual

def parseVal : Nat → List Char → Option (Json × List Char)
  | 0, _ => none
  | _ + 1, 'n' :: 'u' :: 'l' :: 'l' :: r => some (Json.null, r)
  | _ + 1, 't' :: 'r' :: 'u' :: 'e' :: r => some (Json.bool true, r)
  | _ + 1, 'f' :: 'a' :: 'l' :: 's' :: 'e' :: r => some (Json.bool false, r)
  | _ + 1, '"' :: r =>
    match parseStrBody r.length r [] with
    | some (s, r2) => some (Json.str s, r2)
    | none => none
  | f + 1, '[' :: r =>
    match skipWs r with
    | ']' :: r2 => some (Json.arr [], r2)
    | r2 => parseItems f r2 []
  | f + 1, '{' :: r =>
    match skipWs r with
    | '}' :: r2 => some (Json.obj [], r2)
    | r2 => parseMembers f r2 []
  | _ + 1, cs => parseNum cs

def parseItems : Nat → List Char → List Json → Option (Json × List Char)
  | 0, _, _ => none
  | f + 1, cs, acc =>
    match parseVal f cs with
    | some (v, r) =>
      match skipWs r with
      | ',' :: r2 => parseItems f (skipWs r2) (v :: acc)
      | ']' :: r2 => some (Json.arr (v :: acc).reverse, r2)
      | _ => none
    | none => none

def parseMembers : Nat → List Char → List (String × Json) → Option (Json × List Char)
  | 0, _, _ => none
  | f + 1, '"' :: r, acc =>
    match parseStrBody r.length r [] with
    | some (k, r2) =>
      match skipWs r2 with
      | ':' :: r3 =>
        match parseVal f (skipWs r3) with
        | some (v, r4) =>
          match skipWs r4 with
          | ',' :: r5 => parseMembers f (skipWs r5) ((k, v) :: acc)
          | '}' :: r5 => some (Json.obj ((k, v) :: acc).reverse, r5)
          | _ => none
        | none => none
      | _ => none
    | none => none
  | _ + 1, _, _ => none

end

/-- Model of `json.loads`: parse the whole input as a single document, allowing
surrounding whitespace; anything left over is an error. -/
def loads (cs : List Char) : Option Json :=
  match parseVal (2 * cs.length + 2) (skipWs cs) with
  | some (v, r) => if skipWs r = [] then some v else none
  | none => none

/-! ## A model of `json.dumps` (default separators, `ensure_ascii=True`) -/

def hexDigit (n : Nat) : Char := hexAlphabet.getD n '0'

def hexDigits4 (n : Nat) : List Char :=
  [12, 8, 4, 0].map (fun k => hexDigit ((n >>> k) % 16))

def escapeChar (c : Char) : List Char :=
  if c = '"' then ['\\', '"']
  else if c = '\\' then ['\\', '\\']
  else if c = '\n' then ['\\', 'n']
  else if c = '\t' then ['\\', 't']
  else if c = '\r' then ['\\', 'r']
  else if c = '\x08' then ['\\', 'b']
  else if c = '\x0c' then ['\\', 'f']
  else if c.toNat < 32 || c.toNat > 126 then '\\' :: 'u' :: hexDigits4 c.toNat
  else [c]

def dumpsStrRaw (s : String) : List Char :=
  '"' :: (s.toList.map escapeChar).flatten ++ ['"']

mutual

def dumps : Json → List Char
  | Json.null => ['n', 'u', 'l', 'l']
  | Json.bool true => ['t', 'r', 'u', 'e']
  | Json.bool false => ['f', 'a', 'l', 's', 'e']
  | Json.num n => (toString n).toList
  | Json.str s => dumpsStrRaw s
  | Json.arr xs => '[' :: dumpsItems xs ++ [']']
  | Json.obj kvs => '{' :: dumpsMembers kvs ++ ['}']

def dumpsItems : List Json → List Char
  | [] => []
  | [x] => dumps x
  | x :: xs => dumps x ++ [',', ' '] ++ dumpsItems xs

def dumpsMembers : List (String × Json) → List Char
  | [] => []
  | [(k, v)] => dumpsStrRaw k ++ [':', ' '] ++ dumps v
  | (k, v) :: kvs => dumpsStrRaw k ++ [':', ' '] ++ dumps v ++ [',', ' '] ++ dumpsMembers kvs

end

/-! ## Python `str()` rendering (used in error messages) -/

def pyTypeName : Json → String
  | Json.null => "NoneType"
  | Json.bool _ => "bool"
  | Json.num _ => "int"
  | Json.str _ => "str"
  | Json.arr _ => "list"
  | Json.obj _ => "dict"

mutual

/-- Python `repr()` of a JSON value (string escaping inside `repr` simplified
to plain quoting; no envelope in the repository puts quotes inside messages). -/
def pyRepr : Json → String
  | Json.null => "None"
  | Json.bool true => "True"
  | Json.bool false => "False"
  | Json.num n => toString n
  | Json.str s => "'" ++ s ++ "'"
  | Json.arr xs => "[" ++ pyReprItems xs ++ "]"
  | Json.obj kvs => "\x7b" ++ pyReprMembers kvs ++ "\x7d"

def pyReprItems : List Json → String
  | [] => ""
  | [x] => pyRepr x
  | x :: xs => pyRepr x ++ ", " ++ pyReprItems xs

def pyReprMembers : List (String × Json) → String
  | [] => ""
  | [(k, v)] => "'" ++ k ++ "': " ++ pyRepr v
  | (k, v) :: kvs => "'" ++ k ++ "': " ++ pyRepr v ++ ", " ++ pyReprMembers kvs

end

/-- Python `str()` of a JSON value, as used by `f"...{x}"` and `str(e)`. -/
def pyStr : Json → String
  | Json.str s => s
  | v => pyRepr v

/-! ## Framed Stream Codec — receiver side

Both receivers keep an append-only accumulator and attempt a JSON parse of the
whole accumulator after every read:
* host: `HoudiniMCPServer._run_server`, `src/houdinimcp_addon.py` lines 196-211;
* client: `HoudiniConnection.receive_full_response`,
  `src/src/houdini_mcp/server.py` lines 49-102. -/

/-- The receiver-side decoder fed one chunk at a time: append the chunk to the
accumulator, attempt `json.loads` of the whole accumulator; on success the
accumulator is consumed as one message and reset to empty (host loop lines
197-211).  Returns the decoded messages in order and the final accumulator. -/
def feedChunks : List Char → List Json → List (List Char) → List Json × List Char
  | acc, msgs, [] => (msgs, acc)
  | acc, msgs, c :: cs =>
    match loads (acc ++ c) with
    | some v => feedChunks [] (msgs ++ [v]) cs
    | none => feedChunks (acc ++ c) msgs cs

/-- One event delivered by `sock.recv` to `receive_full_response`: a chunk of
bytes (an empty chunk signals orderly remote close), a `socket.timeout`, or a
connection-level error (`ConnectionError`/`BrokenPipeError`/
`ConnectionResetError`). -/
inductive RecvEvent where
  | chunk : List Char → RecvEvent
  | timeout : RecvEvent
  | connError : RecvEvent
deriving DecidableEq

/-- Model of `receive_full_response` lines 89-102: after breaking out of the read loop,
try to use the accumulated bytes; an unparseable non-empty accumulation raises
`Incomplete JSON response received`, an empty one raises `No data received`. -/
def finishRecv (acc : List Char) : Except String (List Char) :=
  if acc.isEmpty then Except.error ("No data received")
  else
    match loads acc with
    | some _ => Except.ok acc
    | none => Except.error ("Incomplete JSON response received")

/-- Model of `HoudiniConnection.receive_full_response` (lines 49-102) as a function of
the accumulated bytes and the sequence of socket events.  A data chunk is
appended and the whole accumulation is parsed (success returns it); an empty
chunk with nothing accumulated raises, with data accumulated it breaks to
`finishRecv`; a timeout breaks to `finishRecv`; a connection error re-raises.
An exhausted event list stands for a socket that never returns — unreachable
in every property below. -/
def receive_full_response : List Char → List RecvEvent → Except String (List Char)
  | _, [] => Except.error ("socket blocked")
  | acc, RecvEvent.chunk d :: evs =>
    if d.isEmpty then
      if acc.isEmpty then Except.error ("Connection closed before receiving any data")
      else finishRecv acc
    else
      match loads (acc ++ d) with
      | some _ => Except.ok (acc ++ d)
      | none => receive_full_response (acc ++ d) evs
  | acc, RecvEvent.timeout :: _ => finishRecv acc
  | _, RecvEvent.connError :: _ => Except.error ("Socket connection error during receive")

/-- Holds (as `true`) when none of the successive accumulations formed by the chunks
parses as a complete JSON document — i.e. the read loop is still mid-message
after consuming all these chunks. -/
def stillIncomplete : List Char → List (List Char) → Bool
  | _, [] => true
  | acc, c :: cs => (loads (acc ++ c)).isNone && stillIncomplete (acc ++ c) cs

def exceptIsOk : Except String (List Char) → Bool
  | Except.ok _ => true
  | Except.error _ => false

/-! ## Command Dispatcher — `HoudiniMCPServer.execute_command`
(`src/houdinimcp_addon.py` lines 236-288) -/

/-- The keys of the fixed handler table built in `execute_command`
(lines 243-270). -/
def handlerNames : List String :=
  ["get_scene_info", "create_node", "modify_node", "delete_node", "get_node_info",
   "execute_code", "set_parameter", "create_geometry", "layout_network",
   "connect_nodes", "set_material", "create_subnet", "create_digital_asset",
   "get_parameter_info", "save_hip", "load_hip", "create_camera", "create_light",
   "create_sim", "run_simulation", "export_fbx", "export_abc", "export_usd",
   "render_scene", "screenshot_viewport", "render_cop"]

def errEnvelope (msg : String) : Json :=
  Json.obj [("status", Json.str "error"), ("message", Json.str msg)]

def successEnvelope (result : Json) : Json :=
  Json.obj [("status", Json.str "success"), ("result", result)]

/-- Python's `AttributeError` message for `x.get` on a non-dict. -/
def attrErrMsg (v : Json) : String :=
  "'" ++ pyTypeName v ++ "' object has no attribute 'get'"

/-- Model of `HoudiniMCPServer.execute_command` (lines 236-288).  The domain handlers
are outside the core; `behavior name params` stands for the invocation
`handlers[name](**params)`, returning the handler's result or the message of
the exception it raised.  A `type` value absent from the handler table yields
the unknown-command error envelope without consulting `behavior`; a handler
fault is caught and converted to an error envelope (lines 279-282); a
non-object command or an unhashable `type` raises inside the outer `try` and
is converted to an error envelope by lines 285-288. -/
def execute_command (behavior : String → Json → Except String Json) (cmd : Json) : Json :=
  match cmd with
  | Json.obj kvs =>
    let cmdType := pyGet kvs "type"
    let params := (pyGet kvs "params").getD (Json.obj [])
    match cmdType with
    | some (Json.arr _) => errEnvelope ("unhashable type: 'list'")
    | some (Json.obj _) => errEnvelope ("unhashable type: 'dict'")
    | some (Json.str s) =>
      if s ∈ handlerNames then
        match behavior s params with
        | Except.ok r => successEnvelope r
        | Except.error m => errEnvelope m
      else errEnvelope ("Unknown command type: " ++ s)
    | some v => errEnvelope ("Unknown command type: " ++ pyStr v)
    | none => errEnvelope ("Unknown command type: None")
  | v => errEnvelope (attrErrMsg v)

/-! ## Host Listener — the connected part of `HoudiniMCPServer._run_server`
(`src/houdinimcp_addon.py` lines 175-234) -/

/-- The host's per-connection state: whether an accepted client socket is held
(`self.client`) and the receive buffer (`self.buffer`). -/
structure HostConn where
  clientConnected : Bool
  buffer : List Char
deriving DecidableEq

/-- One event observed by the server loop on the accepted client socket. -/
inductive NetEvent where
  | data : List Char → NetEvent
  | timeout : NetEvent
  | recvError : NetEvent
deriving DecidableEq

/-- One iteration of the `_run_server` loop while a client is connected
(lines 193-224): on data, append to the buffer and attempt to parse the whole
buffer as JSON; a complete request clears the buffer, is dispatched through
`execute_command`, and the response envelope is serialized and sent back; an
incomplete buffer is kept; an empty read (client closed) or a receive error
discards the connection and clears the buffer; a timeout does nothing.
Returns the new state and the responses written to the socket. -/
def serverStep (behavior : String → Json → Except String Json)
    (st : HostConn) (ev : NetEvent) : HostConn × List (List Char) :=
  if !st.clientConnected then (st, [])
  else
    match ev with
    | NetEvent.data d =>
      if d.isEmpty then ({ clientConnected := false, buffer := [] }, [])
      else
        match loads (st.buffer ++ d) with
        | some cmd =>
          ({ clientConnected := true, buffer := [] },
           [dumps (execute_command behavior cmd)])
        | none => ({ clientConnected := true, buffer := st.buffer ++ d }, [])
    | NetEvent.timeout => (st, [])
    | NetEvent.recvError => ({ clientConnected := false, buffer := [] }, [])

/-! ## Client — `HoudiniConnection.send_command`
(`src/src/houdini_mcp/server.py` lines 104-154) -/

/-- What `receive_full_response` produced for one call, from the client's point
of view: the full response bytes, a `socket.timeout`, a connection error, or
any other raised exception (e.g. `Incomplete JSON response received`). -/
inductive RecvResult where
  | ok : List Char → RecvResult
  | timeout : RecvResult
  | connError : String → RecvResult
  | otherError : String → RecvResult

/-- Python `str()` of the value of `response.get("message", "Unknown error from
Houdini")` (line 134). -/
def errMessageOf (resp : List (String × Json)) : String :=
  pyStr ((pyGet resp "message").getD (Json.str "Unknown error from Houdini"))

/-- Model of `HoudiniConnection.send_command` (lines 104-154), as a function of the
connection state and the outcome of the receive.  Returns the call's result
(`response["result"]` or the raised exception's message) together with
whether `self.sock` is still set afterwards.

Paths, mirroring the source:
* no socket and reconnect fails → `ConnectionError` (line 107);
* response parses to an envelope with `status == "error"` → the raise at
  line 134 is caught by the generic handler at lines 151-154, which sets
  `self.sock = None` and re-raises `Communication error with Houdini: ...`;
* any other parsed object → `response.get("result", {})`, socket kept;
* unparseable bytes → `json.JSONDecodeError` branch (lines 145-150), which
  raises but does NOT clear the socket;
* non-dict response → `.get` raises `AttributeError`, caught at line 151,
  socket cleared;
* timeout → socket cleared, timeout message (lines 137-140);
* connection error → socket cleared (lines 141-144);
* other receive exception → caught at line 151, socket cleared. -/
def send_command (sockConnected : Bool) (connectOk : Bool) (recv : RecvResult) :
    Except String Json × Bool :=
  if !sockConnected && !connectOk then (Except.error ("Not connected to Houdini"), false)
  else
    match recv with
    | RecvResult.ok d =>
      match loads d with
      | some (Json.obj resp) =>
        if pyGet resp "status" = some (Json.str "error") then
          (Except.error ("Communication error with Houdini: " ++ errMessageOf resp), false)
        else (Except.ok ((pyGet resp "result").getD (Json.obj [])), true)
      | some v =>
        (Except.error ("Communication error with Houdini: " ++ attrErrMsg v), false)
      | none => (Except.error ("Invalid response from Houdini"), true)
    | RecvResult.timeout =>
      (Except.error ("Timeout waiting for Houdini response - try simplifying your request"), false)
    | RecvResult.connError m =>
      (Except.error ("Connection to Houdini lost: " ++ m), false)
    | RecvResult.otherError m =>
      (Except.error ("Communication error with Houdini: " ++ m), false)

/-! ## Registry Store — port files

The registry directory is modelled as a list of `(filename, content)` pairs in
listing order; a real directory has pairwise distinct filenames.  Deleting a
file is modelled as always succeeding (the source ignores a failing
`os.remove`). -/

/-- The filename filter applied by both scanners:
`fname.startswith('houdini_') and fname.endswith('.json')` — expressed on the
character list (first eight characters, last five characters). -/
def isPortFileName (n : String) : Bool :=
  (n.toList.take 8 == ("houdini_").toList) &&
    (n.toList.reverse.take 5 == (".json").toList.reverse)

/-- The integer `os.kill` receives for a truthy JSON pid value: an integer is
itself, Python's `True` is the integer 1, and any other truthy value makes
`os.kill` raise `TypeError` (POSIX branch). -/
def pidToInt : Json → Option Int
  | Json.num n => some n
  | Json.bool true => some 1
  | _ => none

/-- Model of `HoudiniMCPServer._clean_stale_port_files` (`src/houdinimcp_addon.py`
lines 61-78): for each `houdini_*.json` file that parses as a JSON object
whose `pid` value is truthy and an integer, probe the pid and delete the file
when the probe fails; every exception (parse failure, non-dict content,
`TypeError` from a non-integer pid) is swallowed by `except Exception: pass`,
leaving the file in place.  Returns the surviving files and the probed pids. -/
def clean_stale_port_files (alive : Int → Bool) :
    List (String × List Char) → List (String × List Char) × List Int
  | [] => ([], [])
  | f :: fs =>
    let r := clean_stale_port_files alive fs
    if !isPortFileName f.1 then (f :: r.1, r.2)
    else
      match loads f.2 with
      | some (Json.obj kvs) =>
        let pid := (pyGet kvs "pid").getD Json.null
        if pyTruthy pid then
          match pidToInt pid with
          | some n => if alive n then (f :: r.1, n :: r.2) else (r.1, n :: r.2)
          | none => (f :: r.1, r.2)
        else (f :: r.1, r.2)
      | _ => (f :: r.1, r.2)

/-- The scan loop of `_discover_instances` (`src/src/houdini_mcp/server.py`
lines 239-258), before the final sort: returns, in listing order, the kept
descriptors, the names of the deleted stale files, and the probed pids.
A file that fails to parse, holds a non-dict document, or has a truthy
non-integer pid (the `TypeError` from `os.kill`) is skipped by
`except Exception: continue`. -/
def scanFiles (alive : Int → Bool) :
    List (String × List Char) → List Json × List String × List Int
  | [] => ([], [], [])
  | f :: fs =>
    let r := scanFiles alive fs
    if !isPortFileName f.1 then r
    else
      match loads f.2 with
      | some (Json.obj kvs) =>
        let pid := (pyGet kvs "pid").getD Json.null
        if pyTruthy pid then
          match pidToInt pid with
          | some n =>
            if alive n then (Json.obj kvs :: r.1, r.2.1, n :: r.2.2)
            else (r.1, f.1 :: r.2.1, n :: r.2.2)
          | none => r
        else (Json.obj kvs :: r.1, r.2.1, r.2.2)
      | _ => r

/-- The sort key of line 261: `x.get('started_at', '')`, with the value taken
as a string (the only case in which Python's string sort is defined). -/
def startKey (j : Json) : String :=
  match j with
  | Json.obj kvs =>
    match pyGet kvs "started_at" with
    | some (Json.str s) => s
    | _ => ""
  | _ => ""

/-- Executable lexicographic comparison of character lists — Python's string
`<` compares code points left to right. -/
def charListLt : List Char → List Char → Bool
  | [], [] => false
  | [], _ :: _ => true
  | _ :: _, [] => false
  | a :: as, b :: bs => if a < b then true else if b < a then false else charListLt as bs

/-- Executable Python string comparison. -/
def keyLt (a b : String) : Bool := charListLt a.toList b.toList

/-- Stable insertion for `list.sort(key=..., reverse=True)`: an element moves
past another only when the other's key is strictly smaller, so equal keys keep
their original order and keys decrease along the result. -/
def insertDesc (x : Json) : List Json → List Json
  | [] => [x]
  | y :: ys => if keyLt (startKey x) (startKey y) then y :: insertDesc x ys else x :: y :: ys

/-- Model of `instances.sort(key=lambda x: x.get('started_at', ''), reverse=True)`
(line 261): stable sort, most recent `started_at` first. -/
def sortDesc : List Json → List Json
  | [] => []
  | x :: xs => insertDesc x (sortDesc xs)

/-- Model of `_discover_instances` (`src/src/houdini_mcp/server.py` lines 228-262):
scan the registry directory, delete stale files, and return the surviving
descriptors sorted by `started_at` descending; also exposes the deleted file
names and the probed pids. -/
def discover_instances (alive : Int → Bool) (files : List (String × List Char)) :
    List Json × List String × List Int :=
  let r := scanFiles alive files
  (sortDesc r.1, r.2.1, r.2.2)

/-- Modelled from the spec: the declarative membership predicate of `listLive`
used for the refinement comparison — a file contributes a descriptor exactly
when its name matches the registry pattern, its content parses as a JSON
object, and its `pid` is either falsy or an integer that passes the liveness
probe. -/
def keepFile (alive : Int → Bool) (f : String × List Char) : Option Json :=
  if !isPortFileName f.1 then none
  else
    match loads f.2 with
    | some (Json.obj kvs) =>
      let pid := (pyGet kvs "pid").getD Json.null
      if pyTruthy pid then
        match pidToInt pid with
        | some n => if alive n then some (Json.obj kvs) else none
        | none => none
      else some (Json.obj kvs)
    | _ => none

/-- Modelled from the spec: the declarative deletion predicate — a file is
deleted exactly when it parses as a JSON object whose `pid` is truthy, an
integer, and fails the liveness probe. -/
def removeFile (alive : Int → Bool) (f : String × List Char) : Option String :=
  if !isPortFileName f.1 then none
  else
    match loads f.2 with
    | some (Json.obj kvs) =>
      let pid := (pyGet kvs "pid").getD Json.null
      if pyTruthy pid then
        match pidToInt pid with
        | some n => if alive n then none else some f.1
        | none => none
      else none
    | _ => none

/-- Well-formedness of a registry directory state: every descriptor that
parses as a JSON object carries its `started_at` either absent or as a string
(otherwise Python's sort would raise `TypeError`, outside this model). -/
def startedAtOk (f : String × List Char) : Bool :=
  match loads f.2 with
  | some (Json.obj kvs) =>
    match pyGet kvs "started_at" with
    | none => true
    | some (Json.str _) => true
    | some _ => false
  | _ => true

/-- The pid that a scan passes to `os.kill` for a given file, if any: the
file matches the registry pattern, parses as a JSON object, and its `pid`
value is truthy and integer-like.  (Both scanners probe the same pids,
whatever the probe answers.) -/
def probeFile (f : String × List Char) : Option Int :=
  if !isPortFileName f.1 then none
  else
    match loads f.2 with
    | some (Json.obj kvs) =>
      let pid := (pyGet kvs "pid").getD Json.null
      if pyTruthy pid then pidToInt pid else none
    | _ => none

/-! ## Client Connection Manager — target resolution
(`get_houdini_connection`, `src/src/houdini_mcp/server.py` lines 265-320) -/

def DEFAULT_PORT : Int := 9877

/-- The port a (re)connection attempt resolves to (lines 289-311): the pinned
`_target_port` when set; otherwise the `port` field of the first discovered
instance; otherwise `DEFAULT_PORT`.  `none` models the `KeyError`/type failure
when the most recent descriptor lacks an integer `port`. -/
def resolve_port (targetPort : Option Int) (instances : List Json) : Option Int :=
  match targetPort with
  | some p => some p
  | none =>
    match instances with
    | [] => some DEFAULT_PORT
    | inst :: _ =>
      match inst with
      | Json.obj kvs =>
        match pyGet kvs "port" with
        | some (Json.num p) => some p
        | _ => none
      | _ => none

/-- The full port choice of `get_houdini_connection` when no healthy
connection exists: discovery then resolution. -/
def get_connection_port (alive : Int → Bool) (files : List (String × List Char))
    (targetPort : Option Int) : Option Int :=
  resolve_port targetPort (discover_instances alive files).1

/-! ## Host Listener — `HoudiniMCPServer.start`
(`src/houdinimcp_addon.py` lines 113-155) -/

/-- Model of `range(port_range[0], port_range[1] + 1)` for the default range
`DEFAULT_PORT_RANGE = (9877, 9886)`. -/
def rangePorts (lo hi : Int) : List Int :=
  (List.range (hi + 1 - lo).toNat).map (fun i => lo + (i : Int))

/-- Replace (or create) the registry file of the given name. -/
def setFile (files : List (String × List Char)) (name : String) (content : List Char) :
    List (String × List Char) :=
  files.filter (fun f => f.1 ≠ name) ++ [(name, content)]

/-- The registry filename for a port: `houdini_{port}.json`. -/
def portFileName (port : Int) : String :=
  "houdini_" ++ toString port ++ ".json"

/-- Outcome of `HoudiniMCPServer.start`: the returned boolean, the registry
directory afterwards, and the bound port if any. -/
structure StartResult where
  ok : Bool
  files : List (String × List Char)
  boundPort : Option Int
deriving DecidableEq

/-- Model of `HoudiniMCPServer.start` (lines 113-155): clean stale port files, then
bind — an explicit port is tried alone; otherwise the ports of the default
range are scanned ascending and the first free one is taken.  A successful
bind publishes the registry descriptor (`_write_port_file`, line 143) and
returns `True`; if no port binds, the `OSError` of lines 135-138 is caught at
line 152, `stop()` runs (no port file was written, so none is removed), and
`start` returns `False`.  `occupied p` models `socket.bind` failing on `p`;
`desc p` is the serialized descriptor content for port `p`. -/
def start (explicitPort : Option Int) (occupied : Int → Bool) (alive : Int → Bool)
    (files : List (String × List Char)) (desc : Int → List Char) : StartResult :=
  let files1 := (clean_stale_port_files alive files).1
  match explicitPort with
  | some p =>
    if occupied p then { ok := false, files := files1, boundPort := none }
    else { ok := true, files := setFile files1 (portFileName p) (desc p), boundPort := some p }
  | none =>
    match (rangePorts 9877 9886).find? (fun p => !occupied p) with
    | some p =>
      { ok := true, files := setFile files1 (portFileName p) (desc p), boundPort := some p }
    | none => { ok := false, files := files1, boundPort := none }

/-! ## Registry publish — `HoudiniMCPServer._write_port_file`
(`src/houdinimcp_addon.py` lines 80-101), at the level of individual
filesystem operations, to capture write-temp-then-rename atomicity. -/

/-- A filesystem mutation: writing (creating or extending) a file, or
`os.replace` (atomic rename over the destination). -/
inductive FsOp where
  | write : String → List Char → FsOp
  | replace : String → String → FsOp

/-- Filesystem content function after one operation. -/
def applyOp (fs : String → Option (List Char)) : FsOp → String → Option (List Char)
  | FsOp.write p c, q => if q = p then some c else fs q
  | FsOp.replace src dst, q =>
    if q = dst then fs src else if q = src then none else fs q

def applyOps (fs : String → Option (List Char)) : List FsOp → String → Option (List Char)
  | [] => fs
  | op :: ops => applyOps (applyOp fs op) ops

def tmpFileName (port : Int) : String := portFileName port ++ ".tmp"

/-- Model of `_write_port_file` as its sequence of filesystem operations: the
descriptor JSON is written to `houdini_{port}.json.tmp` — possibly in several
partial writes, given here as the successive contents `stages` of the
temporary file — and then `os.replace` renames it over the final path.  The
last stage is the complete descriptor document. -/
def write_port_file_ops (port : Int) (stages : List (List Char)) : List FsOp :=
  stages.map (FsOp.write (tmpFileName port)) ++
    [FsOp.replace (tmpFileName port) (portFileName port)]

/-! ## Liveness Prober — `_is_pid_alive`
(`src/houdinimcp_addon.py` lines 26-44 and `src/src/houdini_mcp/server.py`
lines 206-225, POSIX branch). -/

/-- Outcome of the `os.kill(pid, 0)` syscall for a pid that converts to a C
`pid_t`: success, or one of the exception classes the source catches. -/
inductive KillOutcome where
  | ok : KillOutcome
  | osError : KillOutcome
  | processLookupError : KillOutcome
deriving DecidableEq

/-- Whether a Python integer fits the C `pid_t` (32-bit signed on Linux).
CPython converts the `pid` argument of `os.kill` before issuing the syscall
and raises `OverflowError` — which is neither an `OSError` nor a
`ProcessLookupError` — when the conversion fails. -/
def pidInRange (pid : Int) : Bool := -(2 ^ 31) ≤ pid && pid < 2 ^ 31

/-- Model of `_is_pid_alive` (POSIX branch): `os.kill(pid, 0)` — signal number 0, a
pure existence/permission query delivering no signal — inside
`try/except (OSError, ProcessLookupError)`.  Returns the boolean result, or
the uncaught exception: for a pid outside the C `pid_t` range, `os.kill`
raises `OverflowError` during argument conversion, before any syscall, and
the source's except clause does not catch it.  Also returns the trace of
`(pid, signal)` pairs that reach the kill syscall (an out-of-range pid never
does). -/
def is_pid_alive (kill : Int → KillOutcome) (pid : Int) :
    Except String Bool × List (Int × Int) :=
  if !pidInRange pid then (Except.error ("OverflowError"), [])
  else
    match kill pid with
    | KillOutcome.ok => (Except.ok true, [(pid, 0)])
    | KillOutcome.osError => (Except.ok false, [(pid, 0)])
    | KillOutcome.processLookupError => (Except.ok false, [(pid, 0)])

/-! ## General helper lemmas -/

instance {ε α : Type} [DecidableEq ε] [DecidableEq α] : DecidableEq (Except ε α) :=
  fun a b =>
  match a, b with
  | Except.ok x, Except.ok y =>
    if h : x = y then isTrue (by rw [h]) else isFalse (by simp [h])
  | Except.error x, Except.error y =>
    if h : x = y then isTrue (by rw [h]) else isFalse (by simp [h])
  | Except.ok _, Except.error _ => isFalse (by simp)
  | Except.error _, Except.ok _ => isFalse (by simp)

lemma take_append_self {α : Type} (l₁ l₂ : List α) : (l₁ ++ l₂).take l₁.length = l₁ := by
  induction l₁ with
  | nil => simp
  | cons a t ih => simp [ih]

lemma applyOps_append (l₁ l₂ : List FsOp) (fs : String → Option (List Char)) :
    applyOps fs (l₁ ++ l₂) = applyOps (applyOps fs l₁) l₂ := by
  induction l₁ generalizing fs with
  | nil => rfl
  | cons op ops ih => simp [applyOps, ih]

lemma applyOps_writes_other (t p : String) (hne : p ≠ t) (stages : List (List Char)) :
    ∀ fs : String → Option (List Char),
      applyOps fs (stages.map (FsOp.write t)) p = fs p := by
  induction stages with
  | nil => intro fs; rfl
  | cons a rest ih =>
    intro fs
    simp only [List.map_cons, applyOps]
    rw [ih]
    simp [applyOp, hne]

lemma applyOps_writes_last (t : String) (stages : List (List Char)) :
    ∀ (content : List Char) (fs : String → Option (List Char)),
      stages.getLast? = some content →
      applyOps fs (stages.map (FsOp.write t)) t = some content := by
  induction stages with
  | nil => intro content fs h; simp at h
  | cons a rest ih =>
    intro content fs h
    cases rest with
    | nil =>
      simp at h
      subst h
      simp [applyOps, applyOp]
    | cons b r2 =>
      have h2 : (b :: r2).getLast? = some content := by
        rw [List.getLast?_cons_cons] at h
        exact h
      simp only [List.map_cons, applyOps]
      exact ih content _ h2

lemma append_tmp_ne (s : String) : s ++ (".tmp") ≠ s := by
  intro h
  have h2 := congrArg String.length h
  rw [String.length_append] at h2
  have h3 : (".tmp" : String).length = 4 := rfl
  rw [h3] at h2
  omega

/-! ## C9 -/

/-- C9 counterexample: `_is_pid_alive` does NOT return a boolean for every
process identifier — for the invalid identifier `2 ^ 31` (outside the C
`pid_t` range), `os.kill` raises `OverflowError` during argument conversion,
which `except (OSError, ProcessLookupError)` does not catch, so the call
raises instead of returning `False`; no kill query is even issued (whatever
the process table looks like). -/
theorem c9_overflow_counterexample :
    is_pid_alive (fun _ => KillOutcome.ok) (2 ^ 31) =
      (Except.error ("OverflowError"), []) := by decide

/-- C9 amended: `_is_pid_alive` is query-only — every `(pid, signal)` pair
that reaches the kill syscall carries signal number 0, which delivers no
signal — and for every process identifier within the C `pid_t` range it
returns a boolean rather than raising: exactly one signal-0 query is made,
`True` exactly when the probe succeeds, `False` when it raises `OSError` or
`ProcessLookupError` (dead or otherwise invalid in-range identifiers).  For
an identifier outside that range, `os.kill` raises `OverflowError`, which the
except clause does not catch, so the call raises instead of returning. -/
theorem c9_liveness_prober_query_only (kill : Int → KillOutcome) (pid : Int) :
    (∀ q s, (q, s) ∈ (is_pid_alive kill pid).2 → s = 0) ∧
    (pidInRange pid = true →
      (is_pid_alive kill pid).2 = [(pid, 0)] ∧
      ((is_pid_alive kill pid).1 = Except.ok true ↔ kill pid = KillOutcome.ok) ∧
      (kill pid ≠ KillOutcome.ok → (is_pid_alive kill pid).1 = Except.ok false)) ∧
    (pidInRange pid = false →
      is_pid_alive kill pid = (Except.error ("OverflowError"), [])) := by
  refine ⟨?_, ?_, ?_⟩
  · intro q s hqs
    by_cases hr : pidInRange pid = true
    · cases h : kill pid <;> simp [is_pid_alive, hr, h] at hqs <;> exact hqs.2
    · have hr2 : pidInRange pid = false := by simpa using hr
      simp [is_pid_alive, hr2] at hqs
  · intro hr
    cases h : kill pid <;> simp [is_pid_alive, hr, h]
  · intro hr
    simp [is_pid_alive, hr]

/-- Witness for the amended C9: an in-range live pid and the overflow pid. -/
theorem c9_liveness_prober_query_only_witness :
    ((is_pid_alive (fun _ => KillOutcome.ok) 1234).2 = [(1234, 0)] ∧
      ((is_pid_alive (fun _ => KillOutcome.ok) 1234).1 = Except.ok true ↔
        (fun _ : Int => KillOutcome.ok) 1234 = KillOutcome.ok) ∧
      ((fun _ : Int => KillOutcome.ok) 1234 ≠ KillOutcome.ok →
        (is_pid_alive (fun _ => KillOutcome.ok) 1234).1 = Except.ok false)) ∧
    is_pid_alive (fun _ => KillOutcome.osError) (2 ^ 31) =
      (Except.error ("OverflowError"), []) :=
  ⟨(c9_liveness_prober_query_only (fun _ => KillOutcome.ok) 1234).2.1 (by decide),
   (c9_liveness_prober_query_only (fun _ => KillOutcome.osError) (2 ^ 31)).2.2 (by decide)⟩

/-! ## C8 -/

/-- C8: `_write_port_file` writes the complete descriptor to
`houdini_{port}.json.tmp` and then renames it over `houdini_{port}.json`, so
after any prefix of its filesystem operations a reader of the final registry
path observes either exactly what was there before (including no file at all)
or the complete new content — never a partially written descriptor. -/
theorem c8_publish_atomic (port : Int) (stages : List (List Char)) (content : List Char)
    (fs : String → Option (List Char)) (i : Nat)
    (hlast : stages.getLast? = some content) :
    applyOps fs ((write_port_file_ops port stages).take i) (portFileName port) =
        fs (portFileName port) ∨
    applyOps fs ((write_port_file_ops port stages).take i) (portFileName port) =
        some content := by
  have hne : portFileName port ≠ tmpFileName port := by
    intro h
    exact append_tmp_ne (portFileName port) h.symm
  by_cases hi : i ≤ stages.length
  · left
    rw [write_port_file_ops, List.take_append_of_le_length (by simpa using hi),
      ← List.map_take]
    exact applyOps_writes_other _ _ hne _ fs
  · right
    have hlen : (write_port_file_ops port stages).length ≤ i := by
      simp [write_port_file_ops]
      omega
    rw [List.take_of_length_le hlen, write_port_file_ops, applyOps_append]
    simp only [applyOps, applyOp, if_true]
    exact applyOps_writes_last _ _ _ _ hlast

/-- Witness for C8 at a concrete publish. -/
theorem c8_publish_atomic_witness :
    applyOps (fun _ => none) ((write_port_file_ops 9877 [['x']]).take 2) (portFileName 9877) =
        (fun _ : String => (none : Option (List Char))) (portFileName 9877) ∨
    applyOps (fun _ => none) ((write_port_file_ops 9877 [['x']]).take 2) (portFileName 9877) =
        some ['x'] :=
  c8_publish_atomic 9877 [['x']] ['x'] (fun _ => none) 2 (by decide)

/-! ## C7 -/

/-- C7: when `start()` is invoked with no explicit port and every port of the
inclusive default range `[9877, 9886]` is already bound, `start` returns
`False`, the registry directory holds exactly what stale-file cleanup left of
it (no descriptor is published), and no port is bound. -/
theorem c7_bind_exhaustion (occupied alive : Int → Bool)
    (files : List (String × List Char)) (desc : Int → List Char)
    (h : ∀ p ∈ rangePorts 9877 9886, occupied p = true) :
    (start none occupied alive files desc).ok = false ∧
    (start none occupied alive files desc).files = (clean_stale_port_files alive files).1 ∧
    (start none occupied alive files desc).boundPort = none := by
  have hfind : (rangePorts 9877 9886).find? (fun p => !occupied p) = none := by
    rw [List.find?_eq_none]
    intro p hp
    simp [h p hp]
  simp [start, hfind]

/-- Witness for C7: all ten ports occupied on an empty registry directory. -/
theorem c7_bind_exhaustion_witness :
    (start none (fun _ => true) (fun _ => true) [] (fun _ => [])).ok = false ∧
    (start none (fun _ => true) (fun _ => true) [] (fun _ => [])).files =
      (clean_stale_port_files (fun _ => true) []).1 ∧
    (start none (fun _ => true) (fun _ => true) [] (fun _ => [])).boundPort = none :=
  c7_bind_exhaustion (fun _ => true) (fun _ => true) [] (fun _ => []) (by decide)

/-! ## C6 -/

/-- C6: a (re)connection attempt resolves its target port in exactly this
order — the pinned `_target_port` when one is set; otherwise the `port` of the
most recent live registry entry (the head of the discovered list, which
`_discover_instances` orders most-recent-first); otherwise the hardcoded
`DEFAULT_PORT = 9877`. -/
theorem c6_target_resolution (alive : Int → Bool) (files : List (String × List Char))
    (target : Option Int) :
    (∀ p, target = some p → get_connection_port alive files target = some p) ∧
    (target = none → (discover_instances alive files).1 = [] →
      get_connection_port alive files target = some 9877) ∧
    (target = none → ∀ kvs rest p,
      (discover_instances alive files).1 = Json.obj kvs :: rest →
      pyGet kvs "port" = some (Json.num p) →
      get_connection_port alive files target = some p) := by
  refine ⟨?_, ?_, ?_⟩
  · intro p hp
    simp [get_connection_port, resolve_port, hp]
  · intro ht hemp
    simp [get_connection_port, resolve_port, ht, hemp, DEFAULT_PORT]
  · intro ht kvs rest p hhead hport
    simp [get_connection_port, resolve_port, ht, hhead, hport]

/-- Witness for C6: the three resolution cases at concrete registry states. -/
theorem c6_target_resolution_witness :
    get_connection_port (fun _ => true) [] (some 9900) = some 9900 ∧
    get_connection_port (fun _ => true) [] none = some 9877 ∧
    get_connection_port (fun _ => true)
      [(("houdini_9878.json"), dumps (Json.obj [("port", Json.num 9878)]))] none =
      some 9878 :=
  ⟨(c6_target_resolution (fun _ => true) [] (some 9900)).1 9900 rfl,
   (c6_target_resolution (fun _ => true) [] none).2.1 rfl (by decide),
   (c6_target_resolution (fun _ => true)
      [(("houdini_9878.json"), dumps (Json.obj [("port", Json.num 9878)]))] none).2.2
      rfl [("port", Json.num 9878)] [] 9878 (by decide) (by decide)⟩

/-! ## C4 -/

/-- C4: a request envelope whose `type` string is not a key of the handler
table is dispatched without invoking any handler (the result is the same for
every handler behavior) and yields exactly the envelope
`{"status": "error", "message": "Unknown command type: <type>"}`; the host
keeps the accepted client connection, and a subsequent valid request on the
same connection is served normally. -/
theorem c4_unknown_command (behavior behavior2 : String → Json → Except String Json)
    (t : String) (ht : t ∉ handlerNames) (kvs : List (String × Json))
    (hty : pyGet kvs "type" = some (Json.str t)) :
    execute_command behavior (Json.obj kvs) =
      errEnvelope ("Unknown command type: " ++ t) ∧
    execute_command behavior (Json.obj kvs) = execute_command behavior2 (Json.obj kvs) ∧
    (∀ d, d ≠ [] → loads d = some (Json.obj kvs) →
      serverStep behavior ⟨true, []⟩ (NetEvent.data d) =
        (⟨true, []⟩, [dumps (errEnvelope ("Unknown command type: " ++ t))])) ∧
    (∀ t2 kvs2 p r d2, t2 ∈ handlerNames → pyGet kvs2 "type" = some (Json.str t2) →
      pyGet kvs2 "params" = some p → behavior t2 p = Except.ok r →
      d2 ≠ [] → loads d2 = some (Json.obj kvs2) →
      serverStep behavior ⟨true, []⟩ (NetEvent.data d2) =
        (⟨true, []⟩, [dumps (successEnvelope r)])) := by
  have hexec : execute_command behavior (Json.obj kvs) =
      errEnvelope ("Unknown command type: " ++ t) := by
    simp [execute_command, hty, ht]
  refine ⟨hexec, ?_, ?_, ?_⟩
  · rw [hexec]
    simp [execute_command, hty, ht]
  · intro d hd hparse
    have hde : d.isEmpty = false := by
      cases d with
      | nil => exact absurd rfl hd
      | cons a l => rfl
    simp [serverStep, hde, hparse, hexec]
  · intro t2 kvs2 p r d2 ht2 hty2 hp2 hbeh hd2 hparse2
    have hde : d2.isEmpty = false := by
      cases d2 with
      | nil => exact absurd rfl hd2
      | cons a l => rfl
    have hexec2 : execute_command behavior (Json.obj kvs2) = successEnvelope r := by
      simp [execute_command, hty2, ht2, hp2, hbeh]
    simp [serverStep, hde, hparse2, hexec2]

/-- Witness for C4: the spec's Scenario D — `{"type": "noop_probe"}` followed
by a valid `get_scene_info` request on the same connection. -/
theorem c4_unknown_command_witness :
    execute_command (fun _ _ => Except.ok Json.null)
        (Json.obj [(("type"), Json.str ("noop_probe"))]) =
      errEnvelope ("Unknown command type: noop_probe") ∧
    execute_command (fun _ _ => Except.ok Json.null)
        (Json.obj [(("type"), Json.str ("noop_probe"))]) =
      execute_command (fun _ _ => Except.error ("other"))
        (Json.obj [(("type"), Json.str ("noop_probe"))]) ∧
    (∀ d, d ≠ [] →
      loads d = some (Json.obj [(("type"), Json.str ("noop_probe"))]) →
      serverStep (fun _ _ => Except.ok Json.null) ⟨true, []⟩ (NetEvent.data d) =
        (⟨true, []⟩, [dumps (errEnvelope ("Unknown command type: noop_probe"))])) ∧
    (∀ t2 kvs2 p r d2, t2 ∈ handlerNames →
      pyGet kvs2 "type" = some (Json.str t2) →
      pyGet kvs2 "params" = some p →
      (fun _ _ => Except.ok Json.null : String → Json → Except String Json) t2 p =
        Except.ok r →
      d2 ≠ [] → loads d2 = some (Json.obj kvs2) →
      serverStep (fun _ _ => Except.ok Json.null) ⟨true, []⟩ (NetEvent.data d2) =
        (⟨true, []⟩, [dumps (successEnvelope r)])) :=
  c4_unknown_command (fun _ _ => Except.ok Json.null) (fun _ _ => Except.error ("other"))
    ("noop_probe") (by decide) [(("type"), Json.str ("noop_probe"))] (by decide)

/-! ## C1 -/

/-- C1 counterexample: when the host replies with the error envelope
`{"status": "error", "message": "boom"}`, the client's `send_command` does
NOT keep its held connection valid — the raise at line 134 is caught by the
generic handler at lines 151-154, which sets `self.sock = None` (the `false`
in the second component), so the next call reconnects instead of reusing the
connection. -/
theorem c1_counterexample :
    send_command true true (RecvResult.ok (dumps (errEnvelope ("boom")))) =
      (Except.error ("Communication error with Houdini: boom"), false) := by decide

/-- C1 amended: a fault confined to a single command never tears down the
host side — the listener sends the error envelope and keeps its accepted
client socket — but on the client side an error envelope makes `send_command`
discard its socket (`self.sock = None`) while surfacing the message, so the
client's next call opens a fresh connection to the same resolved target
rather than reusing the held one. -/
theorem c1_error_envelope_connections (behavior : String → Json → Except String Json)
    (m : String) (cmd : Json) (d : List Char) (hd : d ≠ [])
    (hparse : loads d = some cmd)
    (hresp : execute_command behavior cmd = errEnvelope m) (connectOk : Bool) :
    serverStep behavior ⟨true, []⟩ (NetEvent.data d) =
      (⟨true, []⟩, [dumps (errEnvelope m)]) ∧
    (∀ d2, loads d2 = some (errEnvelope m) →
      send_command true connectOk (RecvResult.ok d2) =
        (Except.error ("Communication error with Houdini: " ++ m), false)) := by
  constructor
  · have hde : d.isEmpty = false := by
      cases d with
      | nil => exact absurd rfl hd
      | cons a l => rfl
    simp [serverStep, hde, hparse, hresp]
  · intro d2 hp2
    simp [send_command, hp2, errEnvelope, pyGet, errMessageOf, pyStr, List.lookup]

/-- Witness for the amended C1 at a concrete unknown-command exchange. -/
theorem c1_error_envelope_connections_witness :
    serverStep (fun _ _ => Except.ok Json.null) ⟨true, []⟩
        (NetEvent.data (dumps (Json.obj [(("type"), Json.str ("noop_probe"))]))) =
      (⟨true, []⟩, [dumps (errEnvelope ("Unknown command type: noop_probe"))]) ∧
    (∀ d2, loads d2 = some (errEnvelope ("Unknown command type: noop_probe")) →
      send_command true true (RecvResult.ok d2) =
        (Except.error
          ("Communication error with Houdini: Unknown command type: noop_probe"), false)) :=
  c1_error_envelope_connections (fun _ _ => Except.ok Json.null)
    ("Unknown command type: noop_probe")
    (Json.obj [(("type"), Json.str ("noop_probe"))])
    (dumps (Json.obj [(("type"), Json.str ("noop_probe"))]))
    (by decide) (by decide) (by decide) true

/-! ## C3 -/

lemma recv_timeout_aux (chunks : List (List Char)) :
    ∀ acc : List Char, (∀ c ∈ chunks, c ≠ ([] : List Char)) →
    (acc = [] ∨ loads acc = none) →
    stillIncomplete acc chunks = true →
    exceptIsOk (receive_full_response acc
      (chunks.map RecvEvent.chunk ++ [RecvEvent.timeout])) = false := by
  induction chunks with
  | nil =>
    intro acc _ hacc _
    rcases hacc with h | h
    · subst h
      rfl
    · cases acc with
      | nil => rfl
      | cons a l => simp [receive_full_response, finishRecv, h, exceptIsOk]
  | cons c cs ih =>
    intro acc hne hacc hinc
    have hc : c ≠ [] := hne c (by simp)
    have hce : c.isEmpty = false := by
      cases c with
      | nil => exact absurd rfl hc
      | cons a l => rfl
    rw [stillIncomplete, Bool.and_eq_true] at hinc
    have hload : loads (acc ++ c) = none := by
      rcases h : loads (acc ++ c) with _ | v
      · rfl
      · rw [h] at hinc
        simp [Option.isNone] at hinc
    simp only [List.map_cons, List.cons_append, receive_full_response, hce, hload]
    rw [if_neg (by simp [hce])]
    exact ih (acc ++ c) (fun x hx => hne x (by simp [hx])) (Or.inr hload) hinc.2

/-- C3: whenever the read loop of `receive_full_response` ends in a
`socket.timeout` (some chunks were read, none of which completed a JSON
document, then the socket timed out), the call surfaces an error and never
returns the accumulated partial bytes as (part of) a decoded message: after
the timeout the accumulation cannot parse (the loop would already have
returned it), so lines 89-102 raise `Incomplete JSON response received` (or
`No data received` when nothing at all arrived). -/
theorem c3_timeout_discards_partial (chunks : List (List Char))
    (hne : ∀ c ∈ chunks, c ≠ ([] : List Char))
    (hinc : stillIncomplete [] chunks = true) :
    exceptIsOk (receive_full_response []
      (chunks.map RecvEvent.chunk ++ [RecvEvent.timeout])) = false :=
  recv_timeout_aux chunks [] hne (Or.inl rfl) hinc

/-- Witness for C3: a single partial chunk `{"` followed by a timeout. -/
theorem c3_timeout_discards_partial_witness :
    exceptIsOk (receive_full_response []
      ([['{', '"']].map RecvEvent.chunk ++ [RecvEvent.timeout])) = false :=
  c3_timeout_discards_partial [['{', '"']] (by decide) (by decide)

/-! ## C2 -/

lemma feed_aux (s : List Char) (v : Json)
    (hparse : loads s = some v)
    (hpre : ∀ n, n < s.length → 0 < n → loads (s.take n) = none) :
    ∀ (chunks : List (List Char)) (acc : List Char) (msgs : List Json),
      acc ++ chunks.flatten = s → chunks ≠ [] →
      (∀ c ∈ chunks, c ≠ ([] : List Char)) →
      feedChunks acc msgs chunks = (msgs ++ [v], []) := by
  intro chunks
  induction chunks with
  | nil =>
    intro acc msgs _ hch _
    exact absurd rfl hch
  | cons c cs ih =>
    intro acc msgs hjoin _ hne
    cases cs with
    | nil =>
      have hs : acc ++ c = s := by simpa using hjoin
      simp [feedChunks, hs, hparse]
    | cons c2 cs2 =>
      have hc : c ≠ [] := hne c (by simp)
      have hassoc : (acc ++ c) ++ ((c2 :: cs2).flatten) = s := by
        simpa [List.append_assoc] using hjoin
      have hc2 : c2 ≠ [] := hne c2 (by simp)
      have hf : 0 < ((c2 :: cs2).flatten).length := by
        cases c2 with
        | nil => exact absurd rfl hc2
        | cons a l => simp [List.flatten_cons]
      have hlen : (acc ++ c).length < s.length := by
        have h2 : s.length = (acc ++ c).length + ((c2 :: cs2).flatten).length := by
          rw [← hassoc, List.length_append]
        omega
      have hpos : 0 < (acc ++ c).length := by
        cases c with
        | nil => exact absurd rfl hc
        | cons a l => simp [List.length_append]
      have htake : s.take (acc ++ c).length = acc ++ c := by
        rw [← hassoc]
        exact take_append_self _ _
      have hload : loads (acc ++ c) = none := by
        have h3 := hpre (acc ++ c).length hlen hpos
        rwa [htake] at h3
      rw [feedChunks, hload]
      exact ih (acc ++ c) msgs hassoc (by simp) (fun x hx => hne x (by simp [hx]))

/-- C2 amended: encoding a value and feeding the encoding to the receiver-side
decoder in arbitrarily many non-empty chunks yields exactly one decoded
message equal to the value and an empty accumulator, PROVIDED no proper
non-empty prefix of the encoding itself parses as a complete JSON document —
the property the framing relies on.  It holds for the object envelopes this
protocol exchanges but fails for bare numbers (see the counterexample). -/
theorem c2_chunked_decode (v : Json) (s : List Char) (chunks : List (List Char))
    (hjoin : chunks.flatten = s) (hchunks : chunks ≠ [])
    (hne : ∀ c ∈ chunks, c ≠ ([] : List Char))
    (hparse : loads s = some v)
    (hpre : ∀ n, n < s.length → 0 < n → loads (s.take n) = none) :
    feedChunks [] [] chunks = ([v], []) := by
  have h := feed_aux s v hparse hpre chunks [] [] (by simpa using hjoin) hchunks hne
  simpa using h

/-- C2 counterexample: the JSON-serializable value `12` encodes to `"12"`;
fed as the two non-empty chunks `"1"`, `"2"`, the decoder emits TWO messages
`1` and `2` — a complete JSON document can be a strict prefix of another when
the document is a bare number — so the claim's round-trip fails. -/
theorem c2_counterexample :
    dumps (Json.num 12) = ['1', '2'] ∧
    feedChunks [] [] [['1'], ['2']] = ([Json.num 1, Json.num 2], []) ∧
    ¬ feedChunks [] [] [['1'], ['2']] = ([Json.num 12], []) := by decide

/-- Witness for the amended C2: the envelope `{"a": 1}` split mid-key. -/
theorem c2_chunked_decode_witness :
    feedChunks [] [] [['{', '"', 'a', '"'], [':', ' ', '1', '}']] =
      ([Json.obj [(("a"), Json.num 1)]], []) :=
  c2_chunked_decode (Json.obj [(("a"), Json.num 1)])
    (dumps (Json.obj [(("a"), Json.num 1)]))
    [['{', '"', 'a', '"'], [':', ' ', '1', '}']]
    (by decide) (by decide) (by decide) (by decide) (by decide)

/-! ## Characterizations of the registry scans (towards C5 and C10) -/

lemma scanFiles_eq (alive : Int → Bool) (files : List (String × List Char)) :
    scanFiles alive files =
      (files.filterMap (keepFile alive), files.filterMap (removeFile alive),
       files.filterMap probeFile) := by
  induction files with
  | nil => rfl
  | cons f fs ih =>
    by_cases hname : isPortFileName f.1 = true
    case neg =>
      have hname2 : isPortFileName f.1 = false := by simpa using hname
      simp [scanFiles, keepFile, removeFile, probeFile, List.filterMap_cons, hname2, ih]
    case pos =>
      rcases hl : loads f.2 with _ | j
      · simp [scanFiles, keepFile, removeFile, probeFile, List.filterMap_cons, hname, hl, ih]
      · cases j with
        | obj kvs =>
          by_cases ht : pyTruthy ((pyGet kvs "pid").getD Json.null) = true
          · rcases hp : pidToInt ((pyGet kvs "pid").getD Json.null) with _ | n
            · simp [scanFiles, keepFile, removeFile, probeFile, List.filterMap_cons,
                hname, hl, ht, hp, ih]
            · by_cases ha : alive n = true
              · simp [scanFiles, keepFile, removeFile, probeFile, List.filterMap_cons,
                  hname, hl, ht, hp, ha, ih]
              · have ha2 : alive n = false := by simpa using ha
                simp [scanFiles, keepFile, removeFile, probeFile, List.filterMap_cons,
                  hname, hl, ht, hp, ha2, ih]
          · have ht2 : pyTruthy ((pyGet kvs "pid").getD Json.null) = false := by simpa using ht
            simp [scanFiles, keepFile, removeFile, probeFile, List.filterMap_cons,
              hname, hl, ht2, ih]
        | null =>
          simp [scanFiles, keepFile, removeFile, probeFile, List.filterMap_cons, hname, hl, ih]
        | bool b =>
          simp [scanFiles, keepFile, removeFile, probeFile, List.filterMap_cons, hname, hl, ih]
        | num n =>
          simp [scanFiles, keepFile, removeFile, probeFile, List.filterMap_cons, hname, hl, ih]
        | str s =>
          simp [scanFiles, keepFile, removeFile, probeFile, List.filterMap_cons, hname, hl, ih]
        | arr xs =>
          simp [scanFiles, keepFile, removeFile, probeFile, List.filterMap_cons, hname, hl, ih]

lemma clean_stale_eq (alive : Int → Bool) (files : List (String × List Char)) :
    clean_stale_port_files alive files =
      (files.filter (fun f => (removeFile alive f).isNone), files.filterMap probeFile) := by
  induction files with
  | nil => rfl
  | cons f fs ih =>
    by_cases hname : isPortFileName f.1 = true
    case neg =>
      have hname2 : isPortFileName f.1 = false := by simpa using hname
      simp [clean_stale_port_files, removeFile, probeFile, List.filter_cons,
        List.filterMap_cons, hname2, ih]
    case pos =>
      rcases hl : loads f.2 with _ | j
      · simp [clean_stale_port_files, removeFile, probeFile, List.filter_cons,
          List.filterMap_cons, hname, hl, ih]
      · cases j with
        | obj kvs =>
          by_cases ht : pyTruthy ((pyGet kvs "pid").getD Json.null) = true
          · rcases hp : pidToInt ((pyGet kvs "pid").getD Json.null) with _ | n
            · simp [clean_stale_port_files, removeFile, probeFile, List.filter_cons,
                List.filterMap_cons, hname, hl, ht, hp, ih]
            · by_cases ha : alive n = true
              · simp [clean_stale_port_files, removeFile, probeFile, List.filter_cons,
                  List.filterMap_cons, hname, hl, ht, hp, ha, ih]
              · have ha2 : alive n = false := by simpa using ha
                simp [clean_stale_port_files, removeFile, probeFile, List.filter_cons,
                  List.filterMap_cons, hname, hl, ht, hp, ha2, ih]
          · have ht2 : pyTruthy ((pyGet kvs "pid").getD Json.null) = false := by simpa using ht
            simp [clean_stale_port_files, removeFile, probeFile, List.filter_cons,
              List.filterMap_cons, hname, hl, ht2, ih]
        | null =>
          simp [clean_stale_port_files, removeFile, probeFile, List.filter_cons,
            List.filterMap_cons, hname, hl, ih]
        | bool b =>
          simp [clean_stale_port_files, removeFile, probeFile, List.filter_cons,
            List.filterMap_cons, hname, hl, ih]
        | num n =>
          simp [clean_stale_port_files, removeFile, probeFile, List.filter_cons,
            List.filterMap_cons, hname, hl, ih]
        | str s =>
          simp [clean_stale_port_files, removeFile, probeFile, List.filter_cons,
            List.filterMap_cons, hname, hl, ih]
        | arr xs =>
          simp [clean_stale_port_files, removeFile, probeFile, List.filter_cons,
            List.filterMap_cons, hname, hl, ih]

/-! ## Sorting lemmas for `sortDesc` -/

lemma charListLt_iff (as bs : List Char) : charListLt as bs = true ↔ as < bs := by
  induction as generalizing bs with
  | nil =>
    cases bs with
    | nil =>
      constructor
      · intro h
        simp [charListLt] at h
      · intro h
        nomatch h
    | cons b bs2 =>
      constructor
      · intro _
        exact List.Lex.nil
      · intro _
        rfl
  | cons a as2 ih =>
    cases bs with
    | nil =>
      constructor
      · intro h
        simp [charListLt] at h
      · intro h
        nomatch h
    | cons b bs2 =>
      by_cases hab : a < b
      · constructor
        · intro _
          exact List.Lex.rel hab
        · intro _
          simp [charListLt, hab]
      · by_cases hba : b < a
        · constructor
          · intro h
            simp [charListLt, hab, hba] at h
          · intro h
            cases h with
            | cons h1 => exact absurd hba (lt_irrefl a)
            | rel h1 => exact absurd h1 hab
        · have heq : a = b := le_antisymm (le_of_not_lt hba) (le_of_not_lt hab)
          subst heq
          constructor
          · intro h
            have h2 : charListLt as2 bs2 = true := by simpa [charListLt, hab] using h
            exact List.Lex.cons ((ih bs2).mp h2)
          · intro h
            have h2 : as2 < bs2 := by
              cases h with
              | cons h1 => exact h1
              | rel h1 => exact absurd h1 hab
            simp [charListLt, hab, (ih bs2).mpr h2]

lemma keyLt_iff (a b : String) : keyLt a b = true ↔ a < b := by
  rw [keyLt, charListLt_iff, String.lt_iff_toList_lt]

lemma le_of_keyLt_false {a b : String} (h : keyLt a b = false) : b ≤ a := by
  apply le_of_not_lt
  rw [← keyLt_iff, h]
  simp

lemma insertDesc_perm (x : Json) (l : List Json) : (insertDesc x l).Perm (x :: l) := by
  induction l with
  | nil => exact List.Perm.refl _
  | cons y ys ih =>
    rw [insertDesc]
    by_cases h : keyLt (startKey x) (startKey y) = true
    · rw [if_pos h]
      exact (ih.cons y).trans (List.Perm.swap x y ys)
    · rw [if_neg h]

lemma sortDesc_perm (l : List Json) : (sortDesc l).Perm l := by
  induction l with
  | nil => exact List.Perm.refl _
  | cons x xs ih => exact (insertDesc_perm x (sortDesc xs)).trans (ih.cons x)

lemma insertDesc_sorted (x : Json) (l : List Json)
    (hl : l.Pairwise (fun a b => startKey b ≤ startKey a)) :
    (insertDesc x l).Pairwise (fun a b => startKey b ≤ startKey a) := by
  induction l with
  | nil => simp [insertDesc]
  | cons y ys ih =>
    rw [List.pairwise_cons] at hl
    obtain ⟨hy, hys⟩ := hl
    rw [insertDesc]
    by_cases h : keyLt (startKey x) (startKey y) = true
    · rw [if_pos h]
      rw [List.pairwise_cons]
      constructor
      · intro z hz
        rcases List.mem_cons.mp ((insertDesc_perm x ys).mem_iff.mp hz) with rfl | hzy
        · exact le_of_lt ((keyLt_iff _ _).mp h)
        · exact hy z hzy
      · exact ih hys
    · rw [if_neg h]
      have hxy : startKey y ≤ startKey x := le_of_keyLt_false (by simpa using h)
      rw [List.pairwise_cons]
      constructor
      · intro z hz
        rcases List.mem_cons.mp hz with rfl | hz2
        · exact hxy
        · exact le_trans (hy z hz2) hxy
      · exact List.pairwise_cons.mpr ⟨hy, hys⟩

lemma sortDesc_sorted (l : List Json) :
    (sortDesc l).Pairwise (fun a b => startKey b ≤ startKey a) := by
  induction l with
  | nil => simp [sortDesc]
  | cons x xs ih => exact insertDesc_sorted x (sortDesc xs) ih

/-! ## Pid lemmas -/

lemma pidToInt_truthy_ne_zero {pid : Json} {p : Int}
    (h1 : pyTruthy pid = true) (h2 : pidToInt pid = some p) : p ≠ 0 := by
  cases pid with
  | num n =>
    simp [pyTruthy] at h1
    simp [pidToInt] at h2
    subst h2
    exact h1
  | bool b =>
    cases b with
    | false => simp [pyTruthy] at h1
    | true =>
      simp [pidToInt] at h2
      omega
  | null => simp [pidToInt] at h2
  | str s => simp [pidToInt] at h2
  | arr xs => simp [pidToInt] at h2
  | obj kvs => simp [pidToInt] at h2

lemma probeFile_ne_zero {f : String × List Char} {p : Int} (h : probeFile f = some p) :
    p ≠ 0 := by
  by_cases hname : isPortFileName f.1 = true
  · rcases hl : loads f.2 with _ | j
    · simp [probeFile, hname, hl] at h
    · cases j with
      | obj kvs =>
        by_cases ht : pyTruthy ((pyGet kvs "pid").getD Json.null) = true
        · have h2 : pidToInt ((pyGet kvs "pid").getD Json.null) = some p := by
            simpa [probeFile, hname, hl, ht] using h
          exact pidToInt_truthy_ne_zero ht h2
        · have ht2 : pyTruthy ((pyGet kvs "pid").getD Json.null) = false := by simpa using ht
          simp [probeFile, hname, hl, ht2] at h
      | null => simp [probeFile, hname, hl] at h
      | bool b => simp [probeFile, hname, hl] at h
      | num n => simp [probeFile, hname, hl] at h
      | str s => simp [probeFile, hname, hl] at h
      | arr xs => simp [probeFile, hname, hl] at h
  · have hname2 : isPortFileName f.1 = false := by simpa using hname
    simp [probeFile, hname2] at h

lemma removeFile_name {alive : Int → Bool} {f : String × List Char} {x : String}
    (h : removeFile alive f = some x) : x = f.1 := by
  by_cases hname : isPortFileName f.1 = true
  · rcases hl : loads f.2 with _ | j
    · simp [removeFile, hname, hl] at h
    · cases j with
      | obj kvs =>
        by_cases ht : pyTruthy ((pyGet kvs "pid").getD Json.null) = true
        · rcases hp : pidToInt ((pyGet kvs "pid").getD Json.null) with _ | n
          · simp [removeFile, hname, hl, ht, hp] at h
          · by_cases ha : alive n = true
            · simp [removeFile, hname, hl, ht, hp, ha] at h
            · have ha2 : alive n = false := by simpa using ha
              have := by simpa [removeFile, hname, hl, ht, hp, ha2] using h
              exact this.symm
        · have ht2 : pyTruthy ((pyGet kvs "pid").getD Json.null) = false := by simpa using ht
          simp [removeFile, hname, hl, ht2] at h
      | null => simp [removeFile, hname, hl] at h
      | bool b => simp [removeFile, hname, hl] at h
      | num n => simp [removeFile, hname, hl] at h
      | str s => simp [removeFile, hname, hl] at h
      | arr xs => simp [removeFile, hname, hl] at h
  · have hname2 : isPortFileName f.1 = false := by simpa using hname
    simp [removeFile, hname2] at h

/-! ## C5 -/

/-- C5 counterexample: a registry file whose descriptor carries `pid: 0` —
falsy in Python — is returned by `_discover_instances` and its file is NOT
deleted, even though the liveness probe (here: everything dead) fails for
pid 0; `if pid and not _is_pid_alive(pid)` skips the probe for falsy pids, so
the result is not "exactly those descriptors whose processId passes the
liveness probe". -/
theorem c5_counterexample :
    discover_instances (fun _ => false)
        [(("houdini_9877.json"),
          dumps (Json.obj [(("port"), Json.num 9877), (("pid"), Json.num 0),
            (("started_at"), Json.str ("2024"))]))] =
      ([Json.obj [(("port"), Json.num 9877), (("pid"), Json.num 0),
          (("started_at"), Json.str ("2024"))]], [], []) ∧
    (fun _ : Int => false) 0 = false := by decide

/-- C5 amended: `_discover_instances` returns exactly those descriptors whose
files match the `houdini_*.json` pattern, parse as JSON objects, and whose
`pid` is either falsy (absent, 0, …) or passes the liveness probe — rather
than "whose processId passes the probe" — ordered by `started_at` descending;
exactly the parsed descriptors with a truthy integer `pid` failing the probe
are deleted and omitted; a file that fails to parse is skipped without error
(it is neither returned nor deleted). -/
theorem c5_list_live (alive : Int → Bool) (files : List (String × List Char))
    (_hwf : ∀ f ∈ files, startedAtOk f = true) :
    (∀ d, d ∈ (discover_instances alive files).1 ↔
      d ∈ files.filterMap (keepFile alive)) ∧
    (discover_instances alive files).1.Perm (files.filterMap (keepFile alive)) ∧
    (discover_instances alive files).1.Pairwise (fun a b => startKey b ≤ startKey a) ∧
    (discover_instances alive files).2.1 = files.filterMap (removeFile alive) := by
  have hs := scanFiles_eq alive files
  have h1 : (discover_instances alive files).1 =
      sortDesc (files.filterMap (keepFile alive)) := by
    rw [discover_instances, hs]
  refine ⟨?_, ?_, ?_, ?_⟩
  · intro d
    rw [h1]
    exact (sortDesc_perm _).mem_iff
  · rw [h1]
    exact sortDesc_perm _
  · rw [h1]
    exact sortDesc_sorted _
  · rw [discover_instances, hs]

/-- Witness for the amended C5: two live entries and one stale entry. -/
theorem c5_list_live_witness :
    (∀ d, d ∈ (discover_instances (fun p => p == 50)
        [(("houdini_9877.json"),
          dumps (Json.obj [(("port"), Json.num 9877), (("pid"), Json.num 50),
            (("started_at"), Json.str ("2024-01-01"))])),
         (("houdini_9878.json"),
          dumps (Json.obj [(("port"), Json.num 9878), (("pid"), Json.num 60),
            (("started_at"), Json.str ("2024-02-02"))]))]).1 ↔
      d ∈ [(("houdini_9877.json"),
          dumps (Json.obj [(("port"), Json.num 9877), (("pid"), Json.num 50),
            (("started_at"), Json.str ("2024-01-01"))])),
         (("houdini_9878.json"),
          dumps (Json.obj [(("port"), Json.num 9878), (("pid"), Json.num 60),
            (("started_at"), Json.str ("2024-02-02"))]))].filterMap
          (keepFile (fun p => p == 50))) ∧
    (discover_instances (fun p => p == 50)
        [(("houdini_9877.json"),
          dumps (Json.obj [(("port"), Json.num 9877), (("pid"), Json.num 50),
            (("started_at"), Json.str ("2024-01-01"))])),
         (("houdini_9878.json"),
          dumps (Json.obj [(("port"), Json.num 9878), (("pid"), Json.num 60),
            (("started_at"), Json.str ("2024-02-02"))]))]).1.Perm
      ([(("houdini_9877.json"),
          dumps (Json.obj [(("port"), Json.num 9877), (("pid"), Json.num 50),
            (("started_at"), Json.str ("2024-01-01"))])),
         (("houdini_9878.json"),
          dumps (Json.obj [(("port"), Json.num 9878), (("pid"), Json.num 60),
            (("started_at"), Json.str ("2024-02-02"))]))].filterMap
          (keepFile (fun p => p == 50))) ∧
    (discover_instances (fun p => p == 50)
        [(("houdini_9877.json"),
          dumps (Json.obj [(("port"), Json.num 9877), (("pid"), Json.num 50),
            (("started_at"), Json.str ("2024-01-01"))])),
         (("houdini_9878.json"),
          dumps (Json.obj [(("port"), Json.num 9878), (("pid"), Json.num 60),
            (("started_at"), Json.str ("2024-02-02"))]))]).1.Pairwise
      (fun a b => startKey b ≤ startKey a) ∧
    (discover_instances (fun p => p == 50)
        [(("houdini_9877.json"),
          dumps (Json.obj [(("port"), Json.num 9877), (("pid"), Json.num 50),
            (("started_at"), Json.str ("2024-01-01"))])),
         (("houdini_9878.json"),
          dumps (Json.obj [(("port"), Json.num 9878), (("pid"), Json.num 60),
            (("started_at"), Json.str ("2024-02-02"))]))]).2.1 =
      [(("houdini_9877.json"),
          dumps (Json.obj [(("port"), Json.num 9877), (("pid"), Json.num 50),
            (("started_at"), Json.str ("2024-01-01"))])),
         (("houdini_9878.json"),
          dumps (Json.obj [(("port"), Json.num 9878), (("pid"), Json.num 60),
            (("started_at"), Json.str ("2024-02-02"))]))].filterMap
          (removeFile (fun p => p == 50)) :=
  c5_list_live (fun p => p == 50)
    [(("houdini_9877.json"),
      dumps (Json.obj [(("port"), Json.num 9877), (("pid"), Json.num 50),
        (("started_at"), Json.str ("2024-01-01"))])),
     (("houdini_9878.json"),
      dumps (Json.obj [(("port"), Json.num 9878), (("pid"), Json.num 60),
        (("started_at"), Json.str ("2024-02-02"))]))]
    (by decide)

/-! ## C10 -/

/-- C10: a registry descriptor file that parses as a JSON object but carries
no `pid` (or a falsy one such as 0) is treated as live by both sides: client
discovery always includes it, neither scanner deletes it (it survives the
host's stale-file cleanup and is absent from discovery's deletions), and its
pid is never probed — no probe call ever carries a falsy pid value (`0` never
appears among the probed pids, and an absent pid yields no probe at all). -/
theorem c10_falsy_pid_treated_live (alive : Int → Bool)
    (files : List (String × List Char)) (n : String) (c : List Char)
    (kvs : List (String × Json))
    (hmem : (n, c) ∈ files) (hname : isPortFileName n = true)
    (hparse : loads c = some (Json.obj kvs))
    (hfalsy : pyTruthy ((pyGet kvs "pid").getD Json.null) = false)
    (hnd : (files.map Prod.fst).Nodup) :
    Json.obj kvs ∈ (discover_instances alive files).1 ∧
    n ∉ (discover_instances alive files).2.1 ∧
    (n, c) ∈ (clean_stale_port_files alive files).1 ∧
    (∀ p, p ∈ (discover_instances alive files).2.2 → p ≠ 0) ∧
    (∀ p, p ∈ (clean_stale_port_files alive files).2 → p ≠ 0) := by
  have hkeep : keepFile alive (n, c) = some (Json.obj kvs) := by
    simp [keepFile, hname, hparse, hfalsy]
  have hrem : removeFile alive (n, c) = none := by
    simp [removeFile, hname, hparse, hfalsy]
  have hs := scanFiles_eq alive files
  have hc := clean_stale_eq alive files
  refine ⟨?_, ?_, ?_, ?_, ?_⟩
  · have h1 : (discover_instances alive files).1 =
        sortDesc (files.filterMap (keepFile alive)) := by
      rw [discover_instances, hs]
    rw [h1, (sortDesc_perm _).mem_iff]
    exact List.mem_filterMap.mpr ⟨(n, c), hmem, hkeep⟩
  · have h2 : (discover_instances alive files).2.1 =
        files.filterMap (removeFile alive) := by
      rw [discover_instances, hs]
    rw [h2]
    intro hcon
    rcases List.mem_filterMap.mp hcon with ⟨f, hf, hrf⟩
    have hfn : n = f.1 := removeFile_name hrf
    have : f = (n, c) := List.inj_on_of_nodup_map hnd hf hmem hfn.symm
    rw [this, hrem] at hrf
    exact Option.noConfusion hrf
  · rw [hc]
    refine List.mem_filter.mpr ⟨hmem, ?_⟩
    rw [hrem]
    rfl
  · intro p hp
    have h3 : (discover_instances alive files).2.2 = files.filterMap probeFile := by
      rw [discover_instances, hs]
    rw [h3] at hp
    rcases List.mem_filterMap.mp hp with ⟨f, _, hpf⟩
    exact probeFile_ne_zero hpf
  · intro p hp
    rw [hc] at hp
    rcases List.mem_filterMap.mp hp with ⟨f, _, hpf⟩
    exact probeFile_ne_zero hpf

/-- Witness for C10: a descriptor with no `pid` field at all. -/
theorem c10_falsy_pid_treated_live_witness :
    Json.obj [(("port"), Json.num 9877)] ∈
      (discover_instances (fun _ => true)
        [(("houdini_9877.json"), dumps (Json.obj [(("port"), Json.num 9877)]))]).1 ∧
    ("houdini_9877.json") ∉
      (discover_instances (fun _ => true)
        [(("houdini_9877.json"), dumps (Json.obj [(("port"), Json.num 9877)]))]).2.1 ∧
    (("houdini_9877.json"), dumps (Json.obj [(("port"), Json.num 9877)])) ∈
      (clean_stale_port_files (fun _ => true)
        [(("houdini_9877.json"), dumps (Json.obj [(("port"), Json.num 9877)]))]).1 ∧
    (∀ p, p ∈ (discover_instances (fun _ => true)
        [(("houdini_9877.json"), dumps (Json.obj [(("port"), Json.num 9877)]))]).2.2 →
      p ≠ 0) ∧
    (∀ p, p ∈ (clean_stale_port_files (fun _ => true)
        [(("houdini_9877.json"), dumps (Json.obj [(("port"), Json.num 9877)]))]).2 →
      p ≠ 0) :=
  c10_falsy_pid_treated_live (fun _ => true)
    [(("houdini_9877.json"), dumps (Json.obj [(("port"), Json.num 9877)]))]
    ("houdini_9877.json") (dumps (Json.obj [(("port"), Json.num 9877)]))
    [(("port"), Json.num 9877)]
    (by decide) (by decide) (by decide) (by decide) (by decide)
